import Mathlib

/-!
Shallow embedding of src/typescript-front-end-refactoring/src/authentication_manager.ts.

The class wraps an HTTP authentication API. Its observable state is the single
browser localStorage key "auth_token" (a string or absent), modelled here as
Store := Option String. The network is modelled as an oracle
Server : String → FetchOptions → FetchResult mapping the full request URL and
the (merged) fetch configuration to either a resolved Response or a rejected
promise carrying an error message. Promise rejection / thrown exceptions are
modelled with Except String; each async method becomes an explicit
state-passing function Store → (Except String α × Store). The sequential
awaits of the source become sequential matches; the Promise.all pair in login
and getProfileForLoggedInUser is modelled by consulting the oracle for both
requests and rejecting if either rejects (with a pure oracle the arrival
order is unobservable in results and store).
-/

set_option autoImplicit false

namespace AuthSpec

/-- JSON-shaped values as produced by response.json(), plus the JavaScript
undefined value (which arises only from destructuring a missing field). -/
inductive JsValue where
  | str (s : String)
  | num (n : Int)
  | boolV (b : Bool)
  | nullV
  | undefinedV
  | arr (elems : List JsValue)
  | obj (fields : List (String × JsValue))
  deriving Repr

/-- Result of a fetch Response in the model: the HTTP status code and the
outcome of calling .json() on the body (which either parses to a value or
rejects with a parse error). -/
structure Response where
  status : Nat
  jsonBody : Except String JsValue

/-- The web fetch standard: response.ok is true iff the status is in the
inclusive range 200..299. -/
def Response.ok (r : Response) : Bool :=
  decide (200 ≤ r.status ∧ r.status ≤ 299)

/-- A fetch configuration object. A field holding none models an absent key,
matching the JavaScript object-spread semantics used by the request helper. -/
structure FetchOptions where
  mode : Option String := none
  headers : Option (List (String × String)) := none
  referrerPolicy : Option String := none
  method : Option String := none
  body : Option String := none
  deriving Repr, DecidableEq

/-- The defaultOptions object of AuthenticationManager.request (source lines
10-14): CORS mode, JSON content type, no-referrer policy. -/
def defaultOptions : FetchOptions :=
  { mode := some "cors"
    headers := some [("Content-Type", "application/json")]
    referrerPolicy := some "no-referrer" }

/-- JavaScript object spread: every key present in over replaces the value
from base; keys absent from over keep the value of base. -/
def mergeOptions (base over : FetchOptions) : FetchOptions :=
  { mode := match over.mode with
      | some v => some v
      | none => base.mode
    headers := match over.headers with
      | some v => some v
      | none => base.headers
    referrerPolicy := match over.referrerPolicy with
      | some v => some v
      | none => base.referrerPolicy
    method := match over.method with
      | some v => some v
      | none => base.method
    body := match over.body with
      | some v => some v
      | none => base.body }

/-- The outcome of a fetch call: the promise resolves with a Response
(whatever the HTTP status) or rejects with a transport error. -/
inductive FetchResult where
  | resolve (r : Response)
  | reject (e : String)

/-- The network oracle: what the environment answers for a given full URL and
fetch configuration. -/
abbrev Server := String → FetchOptions → FetchResult

/-- The localStorage "auth_token" cell: some token string, or absent. -/
abbrev Store := Option String

/-- The options literal passed by the POST call sites: only method and body
keys are present. -/
def postOptions (b : String) : FetchOptions :=
  { method := some "POST", body := some b }

/-- The absent options argument of the GET call sites (the source default
options = ∅ object). -/
def emptyOptions : FetchOptions := {}

/-- JSON.stringify on an opaque string (quote escaping elided: tokens,
usernames and passwords are treated as opaque atoms). -/
def jsonStr (s : String) : String := "\"" ++ s ++ "\""

/-- JSON.stringify({ username, password }) as sent by login. -/
def stringifyCreds (username password : String) : String :=
  "\x7b\"username\":" ++ jsonStr username ++ ",\"password\":" ++ jsonStr password ++ "\x7d"

/-- JSON.stringify({ token }) where the token read from storage may be null. -/
def stringifyTokenBody (token : Option String) : String :=
  match token with
  | some t => "\x7b\"token\":" ++ jsonStr t ++ "\x7d"
  | none => "\x7b\"token\":null\x7d"

/-- JavaScript string coercion of a nullable string, as in the URL
concatenation of getProfileForLoggedInUser: null prints as null. -/
def optTokenToUrlString : Option String → String
  | some t => t
  | none => "null"

mutual

/-- JavaScript ToString coercion, as applied by localStorage.setItem to the
parsed login response body. -/
def jsToString : JsValue → String
  | .str s => s
  | .num n => toString n
  | .boolV b => cond b "true" "false"
  | .nullV => "null"
  | .undefinedV => "undefined"
  | .arr l => jsArrToString l
  | .obj _ => "[object Object]"
termination_by v => (sizeOf v, 1)

/-- Array.prototype.toString: elements joined by commas. -/
def jsArrToString : List JsValue → String
  | [] => ""
  | [v] => jsArrElemToString v
  | v :: rest => jsArrElemToString v ++ "," ++ jsArrToString rest
termination_by l => (sizeOf l, 2)

/-- Inside Array.prototype.join, null and undefined elements print as the
empty string. -/
def jsArrElemToString : JsValue → String
  | .nullV => ""
  | .undefinedV => ""
  | v => jsToString v
termination_by v => (sizeOf v, 2)

end

/-- JavaScript object destructuring, as in const \x7b username \x7d = json:
destructuring null or undefined throws a TypeError; destructuring any other
non-object value yields undefined for the field; an object yields the field
value, or undefined when the key is missing. -/
def destructureField (v : JsValue) (key : String) : Except String JsValue :=
  match v with
  | .nullV => .error "TypeError: cannot destructure"
  | .undefinedV => .error "TypeError: cannot destructure"
  | .obj fields => .ok ((fields.lookup key).getD .undefinedV)
  | _ => .ok .undefinedV

/-- The class under verification: its only instance data is the base URL
(source lines 1-6). -/
structure AuthenticationManager where
  baseUrl : String

/-- Source lines 9-17: the centralized fetch helper. It issues one request to
baseUrl + url with the spread-merged configuration and returns the raw fetch
outcome unchanged — it does not inspect the status. -/
def AuthenticationManager.request (m : AuthenticationManager) (server : Server)
    (url : String) (options : FetchOptions) : FetchResult :=
  server (m.baseUrl ++ url) (mergeOptions defaultOptions options)

/-- Source lines 36-42: validateToken POSTs the (possibly null) token and
returns response.ok; a transport rejection propagates to the caller. -/
def AuthenticationManager.validateToken (m : AuthenticationManager) (server : Server)
    (token : Option String) : Except String Bool :=
  match m.request server "/validateToken" (postOptions (stringifyTokenBody token)) with
  | .resolve r => .ok r.ok
  | .reject e => .error e

/-- Source lines 20-33: isLoggedIn reads the stored token, awaits
validateToken; a false result removes the stored token; on any thrown error
the catch block logs, removes the stored token and returns false (console
logging has no observable effect in the model). -/
def AuthenticationManager.isLoggedIn (m : AuthenticationManager) (server : Server)
    (st : Store) : Except String Bool × Store :=
  match m.validateToken server st with
  | .ok valid => if valid then (.ok true, st) else (.ok false, none)
  | .error _ => (.ok false, none)

/-- The joint profile-and-roles fetch duplicated at source lines 62-70 (in
login) and 85-93 (in getProfileForLoggedInUser): Promise.all on the two GET
requests, then .json() on each response, combined into one object. The block
touches no storage, so it is a pure function of the oracle and username; if
either request rejects or either body fails to parse, the whole block
rejects. -/
def AuthenticationManager.fetchProfileAndRoles (m : AuthenticationManager)
    (server : Server) (username : String) : Except String JsValue :=
  match m.request server ("/profile/" ++ username) emptyOptions with
  | .reject e => .error e
  | .resolve profileResponse =>
    match m.request server ("/roles/" ++ username) emptyOptions with
    | .reject e => .error e
    | .resolve rolesResponse =>
      match profileResponse.jsonBody with
      | .error e => .error e
      | .ok profile =>
        match rolesResponse.jsonBody with
        | .error e => .error e
        | .ok roles => .ok (.obj [("profile", profile), ("roles", roles)])

/-- Source lines 45-75: login POSTs the credentials; a non-ok status throws
Error("Login failed"); with rememberMe the parsed body is stored (via the
ToString coercion of setItem); then profile and roles are fetched jointly and
their parsed bodies returned as an object. The catch block only logs and
rethrows, so it is the identity on outcomes. -/
def AuthenticationManager.login (m : AuthenticationManager) (server : Server)
    (username password : String) (rememberMe : Bool) (st : Store) :
    Except String JsValue × Store :=
  match m.request server "/login" (postOptions (stringifyCreds username password)) with
  | .reject e => (.error e, st)
  | .resolve loginResponse =>
    if !loginResponse.ok then
      (.error "Login failed", st)
    else
      match (if rememberMe then
               match loginResponse.jsonBody with
               | .ok tok => Except.ok (some (jsToString tok))
               | .error e => Except.error e
             else Except.ok st) with
      | .error e => (.error e, st)
      | .ok st1 => (m.fetchProfileAndRoles server username, st1)

/-- Source lines 78-98: getProfileForLoggedInUser resolves the username from
the stored token, then performs the same joint profile and roles fetch as
login. The catch block only logs and rethrows. No storage write occurs on any
path. -/
def AuthenticationManager.getProfileForLoggedInUser (m : AuthenticationManager)
    (server : Server) (st : Store) : Except String JsValue × Store :=
  match m.request server ("/get?token=" ++ optTokenToUrlString st) emptyOptions with
  | .reject e => (.error e, st)
  | .resolve userResponse =>
    match userResponse.jsonBody with
    | .error e => (.error e, st)
    | .ok userJson =>
      match destructureField userJson "username" with
      | .error e => (.error e, st)
      | .ok usernameV => (m.fetchProfileAndRoles server (jsToString usernameV), st)

/-- A server that resolves every request with status 200 and a null JSON
body. -/
def okServer : Server := fun _ _ => .resolve ⟨200, .ok .nullV⟩

/-- A server on which every request fails at the transport level. -/
def rejectingServer : Server := fun _ _ => .reject "network down"

/-- A server that resolves every request with status 401. -/
def status401Server : Server := fun _ _ => .resolve ⟨401, .ok .nullV⟩

/-- A server that resolves every request with status 403. -/
def status403Server : Server := fun _ _ => .resolve ⟨403, .ok .nullV⟩

/-- The server of the spec login scenario: /login issues the token tok123,
/profile/bob and /roles/bob return the documented bodies. -/
def scenarioServer : Server := fun url _ =>
  if url = "/login" then .resolve ⟨200, .ok (.str "tok123")⟩
  else if url = "/profile/bob" then .resolve ⟨200, .ok (.obj [("name", .str "Bob")])⟩
  else if url = "/roles/bob" then .resolve ⟨200, .ok (.arr [.str "admin"])⟩
  else .reject "unexpected request"

/-- A server on which /login succeeds and issues tok123 but every follow-up
request fails at the transport level. -/
def loginOkThenRejectServer : Server := fun url _ =>
  if url = "/login" then .resolve ⟨200, .ok (.str "tok123")⟩
  else .reject "boom"

/-- A server on which /login resolves with status 200 but a body whose JSON
parse fails; all other requests succeed. -/
def badLoginBodyServer : Server := fun url _ =>
  if url = "/login" then .resolve ⟨200, .error "Unexpected end of JSON input"⟩
  else .resolve ⟨200, .ok .nullV⟩

/-- Source lines 101-113: logout POSTs the stored token; once the request
resolves (any status) the stored token is removed; a rejection reaches the
catch block, which logs and rethrows before the removal line runs, so the
store keeps its prior value. -/
def AuthenticationManager.logout (m : AuthenticationManager) (server : Server)
    (st : Store) : Except String Unit × Store :=
  match m.request server "/logout" (postOptions (stringifyTokenBody st)) with
  | .reject e => (.error e, st)
  | .resolve _ => (.ok (), none)


/-- C1: with rememberMe = true, when the /login request resolves with a
success status and its body parses to the server-issued token, and the
profile and roles fetches resolve with parseable bodies, login stores the
issued token (under the setItem string coercion) and returns the combined
profile/roles object. -/
theorem login_rememberMe_stores_token_and_combines
    (m : AuthenticationManager) (server : Server) (username password : String)
    (st : Store) (lr pr rr : Response) (tok profile roles : JsValue)
    (hLogin : m.request server "/login" (postOptions (stringifyCreds username password)) =
      .resolve lr)
    (hStatus : 200 ≤ lr.status ∧ lr.status ≤ 299)
    (hTok : lr.jsonBody = .ok tok)
    (hProf : m.request server ("/profile/" ++ username) emptyOptions = .resolve pr)
    (hRoles : m.request server ("/roles/" ++ username) emptyOptions = .resolve rr)
    (hProfBody : pr.jsonBody = .ok profile)
    (hRolesBody : rr.jsonBody = .ok roles) :
    m.login server username password true st =
      (.ok (.obj [("profile", profile), ("roles", roles)]), some (jsToString tok)) := by
  have hok : lr.ok = true := decide_eq_true hStatus
  simp [AuthenticationManager.login, AuthenticationManager.fetchProfileAndRoles,
    hLogin, hok, hTok, hProf, hRoles, hProfBody, hRolesBody]

/-- C1 witness: the spec scenario login("bob","pw",true) with /login → 200
body "tok123", /profile/bob → the Bob profile, /roles/bob → ["admin"]. -/
theorem login_rememberMe_stores_token_and_combines_witness :
    AuthenticationManager.login ⟨""⟩ scenarioServer "bob" "pw" true none =
      (Except.ok (JsValue.obj [("profile", JsValue.obj [("name", JsValue.str "Bob")]),
        ("roles", JsValue.arr [JsValue.str "admin"])]), some "tok123") := by
  have h := login_rememberMe_stores_token_and_combines ⟨""⟩ scenarioServer "bob" "pw" none
    ⟨200, .ok (.str "tok123")⟩ ⟨200, .ok (.obj [("name", .str "Bob")])⟩
    ⟨200, .ok (.arr [.str "admin"])⟩ (.str "tok123") (.obj [("name", .str "Bob")])
    (.arr [.str "admin"]) (by rfl) (by decide) (by rfl) (by rfl) (by rfl) (by rfl) (by rfl)
  simpa [jsToString] using h

/-- C4: when the validation endpoint answers the stored token with a 2xx
status, isLoggedIn resolves true and the store is unchanged. -/
theorem isLoggedIn_valid_token_true_store_unchanged
    (m : AuthenticationManager) (server : Server) (st : Store) (r : Response)
    (hResp : m.request server "/validateToken" (postOptions (stringifyTokenBody st)) =
      .resolve r)
    (hStatus : 200 ≤ r.status ∧ r.status ≤ 299) :
    m.isLoggedIn server st = (.ok true, st) := by
  have hok : r.ok = true := decide_eq_true hStatus
  simp [AuthenticationManager.isLoggedIn, AuthenticationManager.validateToken, hResp, hok]

/-- C4 witness: stored token "abc", validation returns 200 → true, store
still "abc". -/
theorem isLoggedIn_valid_token_true_store_unchanged_witness :
    AuthenticationManager.isLoggedIn ⟨"B"⟩ okServer (some "abc") =
      (Except.ok true, some "abc") :=
  isLoggedIn_valid_token_true_store_unchanged ⟨"B"⟩ okServer (some "abc")
    ⟨200, .ok .nullV⟩ (by rfl) (by decide)

/-- C5: with rememberMe = false, login never writes the token store: for
every server behaviour the store after the call equals the store before. -/
theorem login_rememberMe_false_store_unchanged
    (m : AuthenticationManager) (server : Server) (username password : String)
    (st : Store) :
    (m.login server username password false st).snd = st := by
  unfold AuthenticationManager.login
  cases m.request server "/login" (postOptions (stringifyCreds username password)) with
  | reject e => rfl
  | resolve lr =>
    by_cases hok : lr.ok = true
    · simp [hok]
    · simp only [Bool.not_eq_true] at hok
      simp [hok]

/-- C2 (amended): whenever the validation endpoint answers the stored
(possibly absent) token with a non-2xx status, isLoggedIn resolves false and
the auth_token cell is removed. The original claim also promised a false
result merely because the stored token is absent; the code fires the
validation request with the null token and trusts the answer, so an absent
token with a 2xx answer yields true — see the counterexample theorem. -/
theorem isLoggedIn_nonSuccess_false_and_clears
    (m : AuthenticationManager) (server : Server) (st : Store) (r : Response)
    (hResp : m.request server "/validateToken" (postOptions (stringifyTokenBody st)) =
      .resolve r)
    (hStatus : ¬(200 ≤ r.status ∧ r.status ≤ 299)) :
    m.isLoggedIn server st = (.ok false, none) := by
  have hok : r.ok = false := decide_eq_false hStatus
  simp [AuthenticationManager.isLoggedIn, AuthenticationManager.validateToken, hResp, hok]

/-- C2 witness: stored token "abc", validation answers 401 → false, store
cleared. -/
theorem isLoggedIn_nonSuccess_false_and_clears_witness :
    AuthenticationManager.isLoggedIn ⟨"B"⟩ status401Server (some "abc") =
      (Except.ok false, none) :=
  isLoggedIn_nonSuccess_false_and_clears ⟨"B"⟩ status401Server (some "abc")
    ⟨401, .ok .nullV⟩ (by rfl) (by decide)

/-- C2 counterexample: with no stored token but a server that answers the
null-token validation request with 200, isLoggedIn resolves true, not false —
refuting the claim that an absent stored token alone forces a false result. -/
theorem isLoggedIn_absent_token_can_return_true :
    (AuthenticationManager.isLoggedIn ⟨"B"⟩ okServer none).fst = Except.ok true ∧
    (Except.ok true : Except String Bool) ≠ Except.ok false := by
  exact ⟨rfl, by simp⟩

/-- C3: when the POST to /logout resolves — whatever its status — logout
resolves and the store is left empty; when the request rejects, logout
rethrows that error and the store keeps its prior value. -/
theorem logout_clears_on_resolve_rethrows_on_reject
    (m : AuthenticationManager) (server : Server) (st : Store) :
    (∀ r, m.request server "/logout" (postOptions (stringifyTokenBody st)) = .resolve r →
        m.logout server st = (.ok (), none)) ∧
    (∀ e, m.request server "/logout" (postOptions (stringifyTokenBody st)) = .reject e →
        m.logout server st = (.error e, st)) := by
  constructor
  · intro r h
    simp [AuthenticationManager.logout, h]
  · intro e h
    simp [AuthenticationManager.logout, h]

/-- C3 witness: a 401 answer to /logout still clears the store, and a
transport failure leaves the prior token in place while rethrowing. -/
theorem logout_clears_on_resolve_rethrows_on_reject_witness :
    AuthenticationManager.logout ⟨"B"⟩ status401Server (some "abc") =
      (Except.ok (), none) ∧
    AuthenticationManager.logout ⟨"B"⟩ rejectingServer (some "abc") =
      (Except.error "network down", some "abc") :=
  ⟨(logout_clears_on_resolve_rethrows_on_reject ⟨"B"⟩ status401Server (some "abc")).1
      ⟨401, .ok .nullV⟩ (by rfl),
   (logout_clears_on_resolve_rethrows_on_reject ⟨"B"⟩ rejectingServer (some "abc")).2
      "network down" (by rfl)⟩

/-- C6: isLoggedIn always resolves to a boolean — it never rethrows — and
every failure (a rejected validation request, or a negative validation
answer) is converted into a false result plus removal of the stored token. -/
theorem isLoggedIn_never_rejects
    (m : AuthenticationManager) (server : Server) (st : Store) :
    (∃ b, (m.isLoggedIn server st).fst = Except.ok b) ∧
    (∀ e, m.validateToken server st = .error e →
        m.isLoggedIn server st = (.ok false, none)) ∧
    (m.validateToken server st = .ok false →
        m.isLoggedIn server st = (.ok false, none)) := by
  refine ⟨?_, ?_, ?_⟩
  · unfold AuthenticationManager.isLoggedIn
    cases h : m.validateToken server st with
    | ok valid => cases valid <;> simp
    | error e => simp
  · intro e he
    simp [AuthenticationManager.isLoggedIn, he]
  · intro h
    simp [AuthenticationManager.isLoggedIn, h]

/-- C6 witness: with the network down, isLoggedIn resolves false (no
rejection reaches the caller) and the stored token is removed. -/
theorem isLoggedIn_never_rejects_witness :
    AuthenticationManager.isLoggedIn ⟨"B"⟩ rejectingServer (some "abc") =
      (Except.ok false, none) :=
  (isLoggedIn_never_rejects ⟨"B"⟩ rejectingServer (some "abc")).2.1
    "network down" (by rfl)

/-- C7: when the /login request resolves with a non-success status, login
rejects with the explicit Login failed error and the store is unchanged, for
either value of rememberMe. -/
theorem login_nonSuccess_rejects_store_unchanged
    (m : AuthenticationManager) (server : Server) (username password : String)
    (rememberMe : Bool) (st : Store) (r : Response)
    (hResp : m.request server "/login" (postOptions (stringifyCreds username password)) =
      .resolve r)
    (hStatus : ¬(200 ≤ r.status ∧ r.status ≤ 299)) :
    m.login server username password rememberMe st = (.error "Login failed", st) := by
  have hok : r.ok = false := decide_eq_false hStatus
  simp [AuthenticationManager.login, hResp, hok]

/-- C7 witness: /login answers 403 → login rejects with Login failed and the
previously stored token survives, with rememberMe set. -/
theorem login_nonSuccess_rejects_store_unchanged_witness :
    AuthenticationManager.login ⟨"B"⟩ status403Server "bob" "pw" true (some "old") =
      (Except.error "Login failed", some "old") :=
  login_nonSuccess_rejects_store_unchanged ⟨"B"⟩ status403Server "bob" "pw" true
    (some "old") ⟨403, .ok .nullV⟩ (by rfl) (by decide)

/-- C10: getProfileForLoggedInUser never writes the token store: on every
server behaviour, resolving or rejecting at any step, the store after the
call equals the store before. -/
theorem getProfileForLoggedInUser_store_unchanged
    (m : AuthenticationManager) (server : Server) (st : Store) :
    (m.getProfileForLoggedInUser server st).snd = st := by
  unfold AuthenticationManager.getProfileForLoggedInUser
  split
  · rfl
  · split
    · rfl
    · split
      · rfl
      · rfl


/-- Helper: whenever either of the joint profile/roles requests rejects, or
both resolve but either body fails to parse, the joint fetch block rejects. -/
theorem fetchProfileAndRoles_fails
    (m : AuthenticationManager) (server : Server) (username : String)
    (hFail : (∃ e, m.request server ("/profile/" ++ username) emptyOptions = .reject e) ∨
      (∃ e, m.request server ("/roles/" ++ username) emptyOptions = .reject e) ∨
      (∃ pr rr, m.request server ("/profile/" ++ username) emptyOptions = .resolve pr ∧
        m.request server ("/roles/" ++ username) emptyOptions = .resolve rr ∧
        ((∃ e, pr.jsonBody = .error e) ∨ (∃ e, rr.jsonBody = .error e)))) :
    ∃ e, m.fetchProfileAndRoles server username = .error e := by
  unfold AuthenticationManager.fetchProfileAndRoles
  rcases hFail with ⟨e, he⟩ | ⟨e, he⟩ | ⟨pr, rr, hpr, hrr, hbody⟩
  · exact ⟨e, by simp [he]⟩
  · cases hp : m.request server ("/profile/" ++ username) emptyOptions with
    | reject e2 => exact ⟨e2, by simp⟩
    | resolve pr => exact ⟨e, by simp [he]⟩
  · rcases hbody with ⟨e, hbe⟩ | ⟨e, hbe⟩
    · exact ⟨e, by simp [hpr, hrr, hbe]⟩
    · cases hpb : pr.jsonBody with
      | error e2 => exact ⟨e2, by simp [hpr, hrr, hpb]⟩
      | ok profile => exact ⟨e, by simp [hpr, hrr, hpb, hbe]⟩

/-- C9 (amended): with rememberMe = true, when the /login request resolves
with a success status and its body parses to a token — so the token is
persisted — and then either profile/roles request rejects or either body
fails to parse, login rejects yet the newly issued token stays in the store.
The original claim also listed failure of the login body parse itself as a
case leaving a token stored; in that case setItem is never reached and the
store keeps its prior value, which may be empty — see the counterexample. -/
theorem login_late_failure_keeps_persisted_token
    (m : AuthenticationManager) (server : Server) (username password : String)
    (st : Store) (lr : Response) (tok : JsValue)
    (hLogin : m.request server "/login" (postOptions (stringifyCreds username password)) =
      .resolve lr)
    (hStatus : 200 ≤ lr.status ∧ lr.status ≤ 299)
    (hTok : lr.jsonBody = .ok tok)
    (hFail : (∃ e, m.request server ("/profile/" ++ username) emptyOptions = .reject e) ∨
      (∃ e, m.request server ("/roles/" ++ username) emptyOptions = .reject e) ∨
      (∃ pr rr, m.request server ("/profile/" ++ username) emptyOptions = .resolve pr ∧
        m.request server ("/roles/" ++ username) emptyOptions = .resolve rr ∧
        ((∃ e, pr.jsonBody = .error e) ∨ (∃ e, rr.jsonBody = .error e)))) :
    (∃ e, (m.login server username password true st).fst = Except.error e) ∧
    (m.login server username password true st).snd = some (jsToString tok) := by
  have hok : lr.ok = true := decide_eq_true hStatus
  have hlogin : m.login server username password true st =
      (m.fetchProfileAndRoles server username, some (jsToString tok)) := by
    simp [AuthenticationManager.login, hLogin, hok, hTok]
  obtain ⟨e, he⟩ := fetchProfileAndRoles_fails m server username hFail
  rw [hlogin]
  exact ⟨⟨e, he⟩, rfl⟩

/-- C9 witness: /login succeeds and issues tok123, the profile request then
fails at the transport level → login rejects while tok123 stays stored. -/
theorem login_late_failure_keeps_persisted_token_witness :
    (∃ e, (AuthenticationManager.login ⟨""⟩ loginOkThenRejectServer "bob" "pw" true
      none).fst = Except.error e) ∧
    (AuthenticationManager.login ⟨""⟩ loginOkThenRejectServer "bob" "pw" true
      none).snd = some "tok123" := by
  have h := login_late_failure_keeps_persisted_token ⟨""⟩ loginOkThenRejectServer
    "bob" "pw" none ⟨200, .ok (.str "tok123")⟩ (.str "tok123") (by rfl) (by decide)
    (by rfl) (Or.inl ⟨"boom", by rfl⟩)
  simpa [jsToString] using h

/-- C9 counterexample: /login resolves with status 200 but its body fails to
parse, starting from an empty store — a later step of login failed after a
successful login status, login rejects, yet no token is stored, refuting the
claim that every such failure leaves a token in the store. -/
theorem login_body_parse_failure_leaves_store_empty :
    AuthenticationManager.login ⟨""⟩ badLoginBodyServer "bob" "pw" true none =
      (Except.error "Unexpected end of JSON input", none) := by
  rfl

/-- C8: the request helper issues its single request to baseUrl ++ path with
the caller options spread over the defaults — absent caller keys keep the
default CORS mode, JSON content-type header and no-referrer policy, present
caller keys (method, body, or an explicit mode) win — and hands back the raw
fetch outcome without throwing on any status; consequently validateToken
resolves true exactly when the POST to /validateToken resolves with a status
in 200..299, and a transport rejection propagates unchanged. -/
theorem request_merges_defaults_validateToken_iff_success
    (m : AuthenticationManager) (server : Server) (path : String)
    (callOpts : FetchOptions) (token : Option String) :
    (m.request server path callOpts =
      server (m.baseUrl ++ path) (mergeOptions defaultOptions callOpts)) ∧
    (callOpts.mode = none → (mergeOptions defaultOptions callOpts).mode = some "cors") ∧
    (callOpts.headers = none → (mergeOptions defaultOptions callOpts).headers =
      some [("Content-Type", "application/json")]) ∧
    (callOpts.referrerPolicy = none →
      (mergeOptions defaultOptions callOpts).referrerPolicy = some "no-referrer") ∧
    ((mergeOptions defaultOptions callOpts).method = callOpts.method) ∧
    ((mergeOptions defaultOptions callOpts).body = callOpts.body) ∧
    (∀ v, callOpts.mode = some v → (mergeOptions defaultOptions callOpts).mode = some v) ∧
    (∀ r, m.request server "/validateToken" (postOptions (stringifyTokenBody token)) =
        .resolve r →
      (m.validateToken server token = .ok true ↔ (200 ≤ r.status ∧ r.status ≤ 299))) ∧
    (∀ e, m.request server "/validateToken" (postOptions (stringifyTokenBody token)) =
        .reject e →
      m.validateToken server token = .error e) := by
  refine ⟨rfl, ?_, ?_, ?_, ?_, ?_, ?_, ?_, ?_⟩
  · intro h
    simp [mergeOptions, defaultOptions, h]
  · intro h
    simp [mergeOptions, defaultOptions, h]
  · intro h
    simp [mergeOptions, defaultOptions, h]
  · cases hm : callOpts.method <;> simp [mergeOptions, defaultOptions, hm]
  · cases hb : callOpts.body <;> simp [mergeOptions, defaultOptions, hb]
  · intro v h
    simp [mergeOptions, h]
  · intro r h
    simp [AuthenticationManager.validateToken, h, Response.ok]
  · intro e h
    simp [AuthenticationManager.validateToken, h]

/-- C8 witness: a POST options literal keeps the default CORS mode after the
merge, and with a server answering 401 the validateToken result is true only
under the (false) condition that 401 lies in the success range. -/
theorem request_merges_defaults_validateToken_iff_success_witness :
    (mergeOptions defaultOptions (postOptions "b")).mode = some "cors" ∧
    (AuthenticationManager.validateToken ⟨"B"⟩ status401Server (some "t") =
      Except.ok true ↔ (200 ≤ 401 ∧ 401 ≤ 299)) := by
  have h := request_merges_defaults_validateToken_iff_success ⟨"B"⟩ status401Server
    "/x" (postOptions "b") (some "t")
  exact ⟨h.2.1 rfl, h.2.2.2.2.2.2.2.1 ⟨401, .ok .nullV⟩ rfl⟩

end AuthSpec
